import Mathlib

/-!
# xenia/base/memory_win.cc

A shallow embedding of the Win32 back end of `xe::memory`
(`page_size`, `ToWin32ProtectFlags`, `AllocFixed`, `DeallocFixed`, `Protect`)
and the properties of its contract.

Conventions of the embedding

* Pointers and `size_t` values are natural numbers, the null pointer is `0`.
  `DWORD` values are natural numbers too; the code only compares them and
  or-s constants together, so no wrap-around can occur.  `BOOL` is an integer
  and any non-zero value is truthy, as in C++.
* The host operating system is a parameter: a `Host σ` is a set of four
  primitives acting on a host state `σ`.  Every primitive call made by the
  module is appended to a log, so that "calls the host exactly once with these
  arguments" is a statement about that log.
* `assert_unhandled_case` is recorded: the world keeps the list of functions
  whose unhandled-case assertion was reached, and execution continues as in a
  build with assertions compiled out.  In a build with assertions enabled the
  process stops at the first recorded assertion.
* A C++ `enum class` value may hold a bit pattern that is none of its
  enumerators; each enumeration therefore has one extra constructor `invalid`.
-/

namespace xe.memory

/-! ## Host constants (Windows SDK, `winnt.h`, reached through `platform_win.h`) -/

def PAGE_NOACCESS : Nat := 0x01
def PAGE_READONLY : Nat := 0x02
def PAGE_READWRITE : Nat := 0x04
def PAGE_EXECUTE_READWRITE : Nat := 0x40

def MEM_COMMIT : Nat := 0x1000
def MEM_RESERVE : Nat := 0x2000
def MEM_DECOMMIT : Nat := 0x4000
def MEM_RELEASE : Nat := 0x8000

/-! ## Portable enumerations (`xenia/base/memory.h`) -/

/-- Protection level of a page range; `invalid raw` is any value that is none
of the four enumerators. -/
inductive PageAccess where
  | kNoAccess
  | kReadOnly
  | kReadWrite
  | kExecuteReadWrite
  | invalid (raw : Nat)
  deriving DecidableEq, Repr

/-- Kind of allocation; `invalid raw` is any value that is none of the three
enumerators. -/
inductive AllocationType where
  | kReserve
  | kCommit
  | kReserveCommit
  | invalid (raw : Nat)
  deriving DecidableEq, Repr

/-- Kind of deallocation; `invalid raw` is any value that is none of the three
enumerators. -/
inductive DeallocationType where
  | kRelease
  | kDecommit
  | kDecommitRelease
  | invalid (raw : Nat)
  deriving DecidableEq, Repr

/-- The four defined variants of `PageAccess`. -/
def PageAccess.isDefined : PageAccess → Bool
  | .invalid _ => false
  | _ => true

/-- The three defined variants of `AllocationType`. -/
def AllocationType.isDefined : AllocationType → Bool
  | .invalid _ => false
  | _ => true

/-- The three defined variants of `DeallocationType`. -/
def DeallocationType.isDefined : DeallocationType → Bool
  | .invalid _ => false
  | _ => true

/-! ## The host boundary -/

/-- One invocation of a host primitive, with the arguments it was given. -/
inductive HostCall where
  | GetSystemInfo
  | VirtualAlloc (lpAddress dwSize flAllocationType flProtect : Nat)
  | VirtualFree (lpAddress dwSize dwFreeType : Nat)
  | VirtualProtect (lpAddress dwSize flNewProtect : Nat)
  deriving DecidableEq, Repr

/-- The four host primitives the module calls, over a host state `σ`.

* `GetSystemInfo s` gives the `dwAllocationGranularity` field it fills in;
* `VirtualAlloc s lpAddress dwSize flAllocationType flProtect` gives the
  returned pointer;
* `VirtualFree s lpAddress dwSize dwFreeType` gives the returned `BOOL`;
* `VirtualProtect s lpAddress dwSize flNewProtect old` gives the returned
  `BOOL` and the content of `*lpflOldProtect` after the call, `old` being its
  content before the call.

Each also gives the host state after the call. -/
structure Host (σ : Type) where
  GetSystemInfo : σ → Nat × σ
  VirtualAlloc : σ → Nat → Nat → Nat → Nat → Nat × σ
  VirtualFree : σ → Nat → Nat → Nat → Int × σ
  VirtualProtect : σ → Nat → Nat → Nat → Nat → (Int × Nat) × σ

/-- The function whose `assert_unhandled_case` was reached. -/
inductive AssertSite where
  | ToWin32ProtectFlags
  | AllocFixed
  | DeallocFixed
  | Protect
  deriving DecidableEq, Repr

/-- Everything a call of the module can read or change. -/
structure World (σ : Type) where
  /-- State of the host operating system. -/
  host : σ
  /-- The function-local `static size_t value` of `page_size`. -/
  value : Nat
  /-- Host primitives invoked so far, oldest first. -/
  calls : List HostCall
  /-- Assertions `assert_unhandled_case` reached so far, oldest first. -/
  asserts : List AssertSite

/-- The world at process start: `value` is zero-initialised, nothing has been
called and no assertion has been reached. -/
def World.initial {σ : Type} (s : σ) : World σ :=
  { host := s, value := 0, calls := [], asserts := [] }

/-- Reaching `assert_unhandled_case(...)` inside the function `site`. -/
def assert_unhandled_case {σ : Type} (site : AssertSite) (w : World σ) : World σ :=
  { w with asserts := w.asserts ++ [site] }

/-- Invoke `VirtualAlloc`. -/
def callVirtualAlloc {σ : Type} (h : Host σ) (w : World σ)
    (lpAddress dwSize flAllocationType flProtect : Nat) : Nat × World σ :=
  let r := h.VirtualAlloc w.host lpAddress dwSize flAllocationType flProtect
  (r.1, { w with host := r.2,
                 calls := w.calls ++
                   [HostCall.VirtualAlloc lpAddress dwSize flAllocationType flProtect] })

/-- Invoke `VirtualFree`. -/
def callVirtualFree {σ : Type} (h : Host σ) (w : World σ)
    (lpAddress dwSize dwFreeType : Nat) : Int × World σ :=
  let r := h.VirtualFree w.host lpAddress dwSize dwFreeType
  (r.1, { w with host := r.2,
                 calls := w.calls ++ [HostCall.VirtualFree lpAddress dwSize dwFreeType] })

/-- Invoke `VirtualProtect`; `old` is the content of `*lpflOldProtect` before
the call, the second component of the result its content after the call. -/
def callVirtualProtect {σ : Type} (h : Host σ) (w : World σ)
    (lpAddress dwSize flNewProtect old : Nat) : (Int × Nat) × World σ :=
  let r := h.VirtualProtect w.host lpAddress dwSize flNewProtect old
  (r.1, { w with host := r.2,
                 calls := w.calls ++ [HostCall.VirtualProtect lpAddress dwSize flNewProtect] })

/-! ## The module -/

/-- Embedding of `DWORD ToWin32ProtectFlags(PageAccess access)`. -/
def ToWin32ProtectFlags {σ : Type} (access : PageAccess) (w : World σ) : Nat × World σ :=
  match access with
  | .kNoAccess => (PAGE_NOACCESS, w)
  | .kReadOnly => (PAGE_READONLY, w)
  | .kReadWrite => (PAGE_READWRITE, w)
  | .kExecuteReadWrite => (PAGE_EXECUTE_READWRITE, w)
  | .invalid _ => (PAGE_NOACCESS, assert_unhandled_case AssertSite.ToWin32ProtectFlags w)

/-- Embedding of `void* AllocFixed(void* base_address, size_t length,
AllocationType allocation_type, PageAccess access)`. -/
def AllocFixed {σ : Type} (h : Host σ) (base_address length : Nat)
    (allocation_type : AllocationType) (access : PageAccess) (w : World σ) :
    Nat × World σ :=
  let alloc_type0 : Nat := 0
  let sw : Nat × World σ :=
    match allocation_type with
    | .kReserve => (MEM_RESERVE, w)
    | .kCommit => (MEM_COMMIT, w)
    | .kReserveCommit => (MEM_RESERVE ||| MEM_COMMIT, w)
    | .invalid _ => (alloc_type0, assert_unhandled_case AssertSite.AllocFixed w)
  let alloc_type := sw.1
  let p := ToWin32ProtectFlags access sw.2
  let protect := p.1
  callVirtualAlloc h p.2 base_address length alloc_type protect

/-- Embedding of `bool DeallocFixed(void* base_address, size_t length,
DeallocationType deallocation_type)`. -/
def DeallocFixed {σ : Type} (h : Host σ) (base_address length : Nat)
    (deallocation_type : DeallocationType) (w : World σ) : Bool × World σ :=
  let free_type0 : Nat := 0
  let sw : Nat × World σ :=
    match deallocation_type with
    | .kRelease => (MEM_RELEASE, w)
    | .kDecommit => (MEM_DECOMMIT, w)
    | .kDecommitRelease => (MEM_RELEASE ||| MEM_DECOMMIT, w)
    | .invalid _ => (free_type0, assert_unhandled_case AssertSite.DeallocFixed w)
  let free_type := sw.1
  let r := callVirtualFree h sw.2 base_address length free_type
  (if r.1 ≠ 0 then true else false, r.2)

/-- Result of `Protect`: the returned `bool` and the content of
`*out_old_access` after the call (`none` when the pointer is null). -/
structure ProtectResult where
  ret : Bool
  out_old_access : Option PageAccess
  deriving DecidableEq, Repr

/-- Embedding of `bool Protect(void* base_address, size_t length,
PageAccess access, PageAccess* out_old_access)`.  The pointer
`out_old_access` is `none` when null and `some v` when it points at a slot
holding `v`.  In the `switch`, `case PAGE_EXECUTE_READWRITE` has no `break`
and runs on into `default`. -/
def Protect {σ : Type} (h : Host σ) (base_address length : Nat) (access : PageAccess)
    (out_old_access : Option PageAccess) (w : World σ) : ProtectResult × World σ :=
  let out0 : Option PageAccess :=
    match out_old_access with
    | some _ => some PageAccess.kNoAccess
    | none => none
  let p := ToWin32ProtectFlags access w
  let new_protect := p.1
  let old_protect0 : Nat := 0
  let r := callVirtualProtect h p.2 base_address length new_protect old_protect0
  let result := r.1.1
  let old_protect := r.1.2
  if result ≠ 0 then
    match out0 with
    | some cur =>
      if old_protect = PAGE_NOACCESS then
        ({ ret := true, out_old_access := some PageAccess.kNoAccess }, r.2)
      else if old_protect = PAGE_READONLY then
        ({ ret := true, out_old_access := some PageAccess.kReadOnly }, r.2)
      else if old_protect = PAGE_READWRITE then
        ({ ret := true, out_old_access := some PageAccess.kReadWrite }, r.2)
      else if old_protect = PAGE_EXECUTE_READWRITE then
        ({ ret := true, out_old_access := some PageAccess.kExecuteReadWrite },
          assert_unhandled_case AssertSite.Protect r.2)
      else
        ({ ret := true, out_old_access := some cur }, assert_unhandled_case AssertSite.Protect r.2)
    | none => ({ ret := true, out_old_access := none }, r.2)
  else
    ({ ret := false, out_old_access := out0 }, r.2)

/-- Modelled from the spec: `assert_unhandled_case` comes from
`xenia/base/assert.h`, which is not among the sources; the specification
makes it an assertion failure in a debug build and a no-op in a release
build.  `returnsChecked before r` is what a call that started in world
`before` and ended as `r` gives back in a build with assertions enabled: its
result when it reached no assertion, and nothing when it reached one (the
process stops there). -/
def returnsChecked {σ α : Type} (before : World σ) (r : α × World σ) : Option α :=
  if r.2.asserts = before.asserts then some r.1 else none

/-- Answers of a stub host that replies the same way to every call. -/
structure Canned where
  dwAllocationGranularity : Nat
  allocResult : Nat
  freeResult : Int
  protectResult : Int
  oldProtect : Nat

/-- Stub host at the host boundary: every primitive returns its canned
answer, whatever its arguments. -/
def cannedHost (c : Canned) : Host Unit where
  GetSystemInfo := fun s => (c.dwAllocationGranularity, s)
  VirtualAlloc := fun s _ _ _ _ => (c.allocResult, s)
  VirtualFree := fun s _ _ _ => (c.freeResult, s)
  VirtualProtect := fun s _ _ _ _ => ((c.protectResult, c.oldProtect), s)

/-- One reserved region of the Win32 host model. -/
structure Region where
  base : Nat
  size : Nat
  protect : Nat
  deriving DecidableEq, Repr

/-- State of the Win32 host model: the reserved regions and the address the
host hands out next when asked to choose. -/
structure Win32State where
  regions : List Region
  nextBase : Nat
  deriving DecidableEq, Repr

/-- Round a length up to the 64 KiB allocation granularity. -/
def roundUpGranularity (n : Nat) : Nat :=
  (n + 0xFFFF) / 0x10000 * 0x10000

/-- Whether `[a, a + n)` lies inside the region. -/
def Region.covers (r : Region) (a n : Nat) : Bool :=
  decide (r.base ≤ a) && decide (a + n ≤ r.base + r.size)

/-- Whether `[a, a + n)` meets the region. -/
def Region.meets (r : Region) (a n : Nat) : Bool :=
  decide (a < r.base + r.size) && decide (r.base < a + n)

/-- Host model, after the documented behaviour of the Win32 primitives
(not code of this repository): `VirtualAlloc` needs a non-zero size and
`MEM_RESERVE`, `MEM_COMMIT` or both; `VirtualFree` with `MEM_RELEASE` needs
`dwSize = 0` and the base of a reservation, and `MEM_RELEASE` may not be
combined with `MEM_DECOMMIT`; `VirtualProtect` reports the previous
protection of the region. -/
def win32Host : Host Win32State where
  GetSystemInfo := fun s => (0x10000, s)
  VirtualAlloc := fun s lpAddress dwSize flAllocationType flProtect =>
    if dwSize = 0 then (0, s)
    else if flAllocationType ≠ MEM_RESERVE ∧ flAllocationType ≠ MEM_COMMIT ∧
        flAllocationType ≠ MEM_RESERVE ||| MEM_COMMIT then (0, s)
    else if lpAddress = 0 then
      (s.nextBase,
        { regions := { base := s.nextBase, size := roundUpGranularity dwSize,
                       protect := flProtect } :: s.regions,
          nextBase := s.nextBase + roundUpGranularity dwSize })
    else if flAllocationType = MEM_COMMIT then
      if s.regions.any (fun r => r.covers lpAddress dwSize) then (lpAddress, s) else (0, s)
    else if s.regions.any (fun r => r.meets lpAddress dwSize) then (0, s)
    else
      (lpAddress,
        { s with regions := { base := lpAddress, size := roundUpGranularity dwSize,
                              protect := flProtect } :: s.regions })
  VirtualFree := fun s lpAddress dwSize dwFreeType =>
    if dwFreeType = MEM_RELEASE then
      if dwSize ≠ 0 then (0, s)
      else if s.regions.any (fun r => r.base = lpAddress) then
        (1, { s with regions := s.regions.filter (fun r => r.base ≠ lpAddress) })
      else (0, s)
    else if dwFreeType = MEM_DECOMMIT then
      if s.regions.any (fun r => r.covers lpAddress dwSize) then (1, s) else (0, s)
    else (0, s)
  VirtualProtect := fun s lpAddress dwSize flNewProtect old =>
    if dwSize = 0 then ((0, old), s)
    else
      match s.regions.find? (fun r => r.covers lpAddress dwSize) with
      | some r =>
        ((1, r.protect),
          { s with regions := s.regions.map (fun q =>
              if q = r then { q with protect := flNewProtect } else q) })
      | none => ((0, old), s)

/-- The Win32 host model with nothing reserved yet. -/
def win32Start : Win32State :=
  { regions := [], nextBase := 0x10000 }

/-! ## What the claims expect, in the words of the specification -/

/-- Action flags the specification expects for each defined allocation type:
`MEM_RESERVE` for Reserve, `MEM_COMMIT` for Commit and both for
ReserveCommit. -/
def expectedAllocFlags : AllocationType → Option Nat
  | .kReserve => some MEM_RESERVE
  | .kCommit => some MEM_COMMIT
  | .kReserveCommit => some (MEM_RESERVE ||| MEM_COMMIT)
  | .invalid _ => none

/-- Action flags the specification expects for each defined deallocation
type: `MEM_RELEASE` for Release, `MEM_DECOMMIT` for Decommit and both for
DecommitRelease. -/
def expectedFreeFlags : DeallocationType → Option Nat
  | .kRelease => some MEM_RELEASE
  | .kDecommit => some MEM_DECOMMIT
  | .kDecommitRelease => some (MEM_RELEASE ||| MEM_DECOMMIT)
  | .invalid _ => none

theorem ToWin32ProtectFlags_host {σ : Type} (access : PageAccess) (w : World σ) :
    (ToWin32ProtectFlags access w).2.host = w.host ∧
    (ToWin32ProtectFlags access w).2.calls = w.calls ∧
    (ToWin32ProtectFlags access w).2.value = w.value := by
  cases access <;> simp [ToWin32ProtectFlags, assert_unhandled_case]

theorem ToWin32ProtectFlags_defined {σ : Type} (access : PageAccess) (w : World σ)
    (ha : access.isDefined = true) : (ToWin32ProtectFlags access w).2 = w := by
  cases access <;> simp_all [ToWin32ProtectFlags, PageAccess.isDefined]

theorem ToWin32ProtectFlags_value_indep {σ τ : Type} (access : PageAccess)
    (w : World σ) (u : World τ) :
    (ToWin32ProtectFlags access w).1 = (ToWin32ProtectFlags access u).1 := by
  cases access <;> rfl

/-- With a defined access and a successful host call that reports
`PAGE_NOACCESS`, `PAGE_READONLY` or `PAGE_READWRITE`, `Protect` reaches no
assertion. -/
theorem Protect_no_assert_of_break {σ : Type} (h : Host σ) (w : World σ)
    (base_address length : Nat) (access : PageAccess) (out_old_access : Option PageAccess)
    (ha : access.isDefined = true)
    (hold : (h.VirtualProtect w.host base_address length
              (ToWin32ProtectFlags access w).1 0).1.2 = PAGE_NOACCESS ∨
            (h.VirtualProtect w.host base_address length
              (ToWin32ProtectFlags access w).1 0).1.2 = PAGE_READONLY ∨
            (h.VirtualProtect w.host base_address length
              (ToWin32ProtectFlags access w).1 0).1.2 = PAGE_READWRITE) :
    (Protect h base_address length access out_old_access w).2.asserts = w.asserts := by
  have hw := ToWin32ProtectFlags_defined access w ha
  rcases hold with hold | hold | hold <;> cases out_old_access <;>
    by_cases hr : (h.VirtualProtect w.host base_address length
        (ToWin32ProtectFlags access w).1 0).1.1 = 0 <;>
    simp_all [Protect, callVirtualProtect, assert_unhandled_case,
      PAGE_NOACCESS, PAGE_READONLY, PAGE_READWRITE, PAGE_EXECUTE_READWRITE]

/-- With assertions compiled out: for every defined variant `v`, a successful
host call that reports `ToWin32ProtectFlags v` makes `Protect` return true
with `v` in the out slot, and `ToWin32ProtectFlags` is injective on the
defined variants. -/
theorem Protect_roundtrip_release {σ : Type} (h : Host σ) (w : World σ)
    (base_address length : Nat) (access v v' prior : PageAccess)
    (hv : v.isDefined = true) (hv' : v'.isDefined = true)
    (hok : (h.VirtualProtect w.host base_address length
              (ToWin32ProtectFlags access w).1 0).1.1 ≠ 0)
    (hold : (h.VirtualProtect w.host base_address length
              (ToWin32ProtectFlags access w).1 0).1.2 = (ToWin32ProtectFlags v w).1) :
    (Protect h base_address length access (some prior) w).1
        = { ret := true, out_old_access := some v } ∧
    ((ToWin32ProtectFlags v' w).1 = (ToWin32ProtectFlags v w).1 → v' = v) := by
  have hh := (ToWin32ProtectFlags_host access w).1
  constructor
  · cases v <;>
      simp_all [Protect, callVirtualProtect, ToWin32ProtectFlags, PageAccess.isDefined,
        PAGE_NOACCESS, PAGE_READONLY, PAGE_READWRITE, PAGE_EXECUTE_READWRITE]
  · cases v <;> cases v' <;>
      simp_all [ToWin32ProtectFlags, PageAccess.isDefined,
        PAGE_NOACCESS, PAGE_READONLY, PAGE_READWRITE, PAGE_EXECUTE_READWRITE]

/-- With assertions enabled: for `NoAccess`, `ReadOnly` and `ReadWrite` (the
cases of the `switch` that end in `break`) and a defined access argument, a
successful host call that reports `ToWin32ProtectFlags v` makes `Protect`
return true with `v` in the out slot. -/
theorem Protect_roundtrip_checked {σ : Type} (h : Host σ) (w : World σ)
    (base_address length : Nat) (access v prior : PageAccess)
    (ha : access.isDefined = true) (hv : v.isDefined = true)
    (hne : v ≠ PageAccess.kExecuteReadWrite)
    (hok : (h.VirtualProtect w.host base_address length
              (ToWin32ProtectFlags access w).1 0).1.1 ≠ 0)
    (hold : (h.VirtualProtect w.host base_address length
              (ToWin32ProtectFlags access w).1 0).1.2 = (ToWin32ProtectFlags v w).1) :
    returnsChecked w (Protect h base_address length access (some prior) w)
      = some { ret := true, out_old_access := some v } := by
  have hw := ToWin32ProtectFlags_defined access w ha
  cases v <;>
    simp_all [returnsChecked, Protect, callVirtualProtect, ToWin32ProtectFlags,
      PageAccess.isDefined,
      PAGE_NOACCESS, PAGE_READONLY, PAGE_READWRITE, PAGE_EXECUTE_READWRITE]

/-- For every host, an out-of-range allocation type makes `AllocFixed` reach
its unhandled-case assertion and then make its one host call with action
flags 0 (neither `MEM_RESERVE` nor `MEM_COMMIT`), returning what the host
returns. -/
theorem AllocFixed_invalid_type_forwards {σ : Type} (h : Host σ) (w : World σ)
    (base_address length raw : Nat) (access : PageAccess) :
    (AllocFixed h base_address length (AllocationType.invalid raw) access w).2.calls
        = w.calls ++ [HostCall.VirtualAlloc base_address length 0
                        (ToWin32ProtectFlags access w).1] ∧
    (AllocFixed h base_address length (AllocationType.invalid raw) access w).1
        = (h.VirtualAlloc w.host base_address length 0 (ToWin32ProtectFlags access w).1).1 ∧
    (AllocFixed h base_address length (AllocationType.invalid raw) access w).2.host
        = (h.VirtualAlloc w.host base_address length 0 (ToWin32ProtectFlags access w).1).2 ∧
    AssertSite.AllocFixed ∈
      (AllocFixed h base_address length (AllocationType.invalid raw) access w).2.asserts := by
  cases access <;>
    simp [AllocFixed, callVirtualAlloc, ToWin32ProtectFlags, assert_unhandled_case]

/-- The Win32 host model answers null to a `VirtualAlloc` request whose action
flags are 0 and reserves nothing. -/
theorem win32Host_rejects_zero_flags (s : Win32State) (lpAddress dwSize flProtect : Nat) :
    win32Host.VirtualAlloc s lpAddress dwSize 0 flProtect = (0, s) := by
  have h1 : (0 : Nat) ≠ MEM_RESERVE := by decide
  have h2 : (0 : Nat) ≠ MEM_COMMIT := by decide
  have h3 : (0 : Nat) ≠ MEM_RESERVE ||| MEM_COMMIT := by decide
  simp [win32Host, h1, h2, h3]

/-! ## Claims -/

/-- C1 fails on the code at `v = ExecuteReadWrite`: when the host protect
primitive succeeds and reports `ToWin32ProtectFlags ExecuteReadWrite` as the
prior protection, `Protect` called with a non-null `out_old_access` stores
`ExecuteReadWrite`, runs on into `default` and reaches its unhandled-case
assertion, so in a build with assertions enabled it does not return; only
with assertions compiled out does it return true with the slot equal to
`ExecuteReadWrite`. -/
theorem Protect_roundtrip_stops_at_execute_readwrite {σ : Type} (h : Host σ) (w : World σ)
    (base_address length : Nat) (access prior : PageAccess)
    (hok : (h.VirtualProtect w.host base_address length
              (ToWin32ProtectFlags access w).1 0).1.1 ≠ 0)
    (hold : (h.VirtualProtect w.host base_address length
              (ToWin32ProtectFlags access w).1 0).1.2
                = (ToWin32ProtectFlags PageAccess.kExecuteReadWrite w).1) :
    returnsChecked w (Protect h base_address length access (some prior) w) = none ∧
    AssertSite.Protect ∈ (Protect h base_address length access (some prior) w).2.asserts ∧
    (Protect h base_address length access (some prior) w).1
        = { ret := true, out_old_access := some PageAccess.kExecuteReadWrite } := by
  have hh := (ToWin32ProtectFlags_host access w).1
  cases access <;>
    simp_all [returnsChecked, Protect, callVirtualProtect, ToWin32ProtectFlags,
      assert_unhandled_case,
      PAGE_NOACCESS, PAGE_READONLY, PAGE_READWRITE, PAGE_EXECUTE_READWRITE]

/-- Evaluation for C1: a stub host that succeeds and reports
`PAGE_EXECUTE_READWRITE`; `Protect(p, 64 KiB, ReadOnly, &old)` does not
return in a build with assertions enabled. -/
theorem Protect_roundtrip_stops_at_execute_readwrite_witness :
    returnsChecked (World.initial ())
        (Protect (cannedHost ⟨0x10000, 0, 0, 1, PAGE_EXECUTE_READWRITE⟩) 0x20000 0x10000
          PageAccess.kReadOnly (some PageAccess.kReadWrite) (World.initial ())) = none ∧
    AssertSite.Protect ∈
      (Protect (cannedHost ⟨0x10000, 0, 0, 1, PAGE_EXECUTE_READWRITE⟩) 0x20000 0x10000
        PageAccess.kReadOnly (some PageAccess.kReadWrite) (World.initial ())).2.asserts ∧
    (Protect (cannedHost ⟨0x10000, 0, 0, 1, PAGE_EXECUTE_READWRITE⟩) 0x20000 0x10000
        PageAccess.kReadOnly (some PageAccess.kReadWrite) (World.initial ())).1
        = { ret := true, out_old_access := some PageAccess.kExecuteReadWrite } :=
  Protect_roundtrip_stops_at_execute_readwrite
    (cannedHost ⟨0x10000, 0, 0, 1, PAGE_EXECUTE_READWRITE⟩) (World.initial ())
    0x20000 0x10000 PageAccess.kReadOnly PageAccess.kReadWrite (by decide) rfl

/-- C2: whenever the host protect primitive reports failure, `Protect`
returns false, and a non-null out slot holds `NoAccess` whatever it held
before and whatever the host wrote into its own prior-protection output; a
null out pointer stays null. -/
theorem Protect_failure {σ : Type} (h : Host σ) (w : World σ)
    (base_address length : Nat) (access : PageAccess) (out_old_access : Option PageAccess)
    (hfail : (h.VirtualProtect w.host base_address length
                (ToWin32ProtectFlags access w).1 0).1.1 = 0) :
    (Protect h base_address length access out_old_access w).1.ret = false ∧
    (∀ prior, out_old_access = some prior →
      (Protect h base_address length access out_old_access w).1.out_old_access
        = some PageAccess.kNoAccess) ∧
    (out_old_access = none →
      (Protect h base_address length access out_old_access w).1.out_old_access = none) := by
  have hh := (ToWin32ProtectFlags_host access w).1
  cases out_old_access <;> simp_all [Protect, callVirtualProtect]

/-- Witness for C2: a stub host that fails while writing `PAGE_READWRITE` to
its prior-protection output; the slot that held `ExecuteReadWrite` ends up
holding `NoAccess`. -/
theorem Protect_failure_witness :
    (Protect (cannedHost ⟨0x10000, 0, 0, 0, PAGE_READWRITE⟩) 0x20000 0x10000
        PageAccess.kReadOnly (some PageAccess.kExecuteReadWrite) (World.initial ())).1.ret
        = false ∧
    (∀ prior, some PageAccess.kExecuteReadWrite = some prior →
      (Protect (cannedHost ⟨0x10000, 0, 0, 0, PAGE_READWRITE⟩) 0x20000 0x10000
        PageAccess.kReadOnly (some PageAccess.kExecuteReadWrite)
        (World.initial ())).1.out_old_access = some PageAccess.kNoAccess) ∧
    (some PageAccess.kExecuteReadWrite = none →
      (Protect (cannedHost ⟨0x10000, 0, 0, 0, PAGE_READWRITE⟩) 0x20000 0x10000
        PageAccess.kReadOnly (some PageAccess.kExecuteReadWrite)
        (World.initial ())).1.out_old_access = none) :=
  Protect_failure (cannedHost ⟨0x10000, 0, 0, 0, PAGE_READWRITE⟩) (World.initial ())
    0x20000 0x10000 PageAccess.kReadOnly (some PageAccess.kExecuteReadWrite) rfl

/-- C3: for every base address (null included), length, defined allocation
type and defined access, `AllocFixed` appends exactly one host call to the
log, `VirtualAlloc` with the same base and length, the action flags the
specification names for the type and the protection
`ToWin32ProtectFlags access`; it returns the pointer that call returned, so
it is null exactly when the host returned null; it reaches no assertion and
leaves the page-size cache alone. -/
theorem AllocFixed_forwards {σ : Type} (h : Host σ) (w : World σ)
    (base_address length : Nat) (allocation_type : AllocationType) (access : PageAccess)
    (flags : Nat) (ht : expectedAllocFlags allocation_type = some flags)
    (ha : access.isDefined = true) :
    (AllocFixed h base_address length allocation_type access w).2.calls
        = w.calls ++ [HostCall.VirtualAlloc base_address length flags
                        (ToWin32ProtectFlags access w).1] ∧
    (AllocFixed h base_address length allocation_type access w).1
        = (h.VirtualAlloc w.host base_address length flags
            (ToWin32ProtectFlags access w).1).1 ∧
    (AllocFixed h base_address length allocation_type access w).2.host
        = (h.VirtualAlloc w.host base_address length flags
            (ToWin32ProtectFlags access w).1).2 ∧
    ((AllocFixed h base_address length allocation_type access w).1 = 0 ↔
      (h.VirtualAlloc w.host base_address length flags
        (ToWin32ProtectFlags access w).1).1 = 0) ∧
    (AllocFixed h base_address length allocation_type access w).2.asserts = w.asserts ∧
    (AllocFixed h base_address length allocation_type access w).2.value = w.value := by
  cases allocation_type <;> cases access <;>
    simp_all [AllocFixed, callVirtualAlloc, ToWin32ProtectFlags, expectedAllocFlags,
      PageAccess.isDefined]

/-- Witness for C3: reserve and commit 4 MiB at a host-chosen address on the
Win32 host model. -/
theorem AllocFixed_forwards_witness :
    (AllocFixed win32Host 0 0x400000 AllocationType.kReserveCommit PageAccess.kReadWrite
        (World.initial win32Start)).2.calls
        = (World.initial win32Start).calls ++
            [HostCall.VirtualAlloc 0 0x400000 (MEM_RESERVE ||| MEM_COMMIT)
              (ToWin32ProtectFlags PageAccess.kReadWrite (World.initial win32Start)).1] ∧
    (AllocFixed win32Host 0 0x400000 AllocationType.kReserveCommit PageAccess.kReadWrite
        (World.initial win32Start)).1
        = (win32Host.VirtualAlloc (World.initial win32Start).host 0 0x400000
            (MEM_RESERVE ||| MEM_COMMIT)
            (ToWin32ProtectFlags PageAccess.kReadWrite (World.initial win32Start)).1).1 ∧
    (AllocFixed win32Host 0 0x400000 AllocationType.kReserveCommit PageAccess.kReadWrite
        (World.initial win32Start)).2.host
        = (win32Host.VirtualAlloc (World.initial win32Start).host 0 0x400000
            (MEM_RESERVE ||| MEM_COMMIT)
            (ToWin32ProtectFlags PageAccess.kReadWrite (World.initial win32Start)).1).2 ∧
    ((AllocFixed win32Host 0 0x400000 AllocationType.kReserveCommit PageAccess.kReadWrite
        (World.initial win32Start)).1 = 0 ↔
      (win32Host.VirtualAlloc (World.initial win32Start).host 0 0x400000
        (MEM_RESERVE ||| MEM_COMMIT)
        (ToWin32ProtectFlags PageAccess.kReadWrite (World.initial win32Start)).1).1 = 0) ∧
    (AllocFixed win32Host 0 0x400000 AllocationType.kReserveCommit PageAccess.kReadWrite
        (World.initial win32Start)).2.asserts = (World.initial win32Start).asserts ∧
    (AllocFixed win32Host 0 0x400000 AllocationType.kReserveCommit PageAccess.kReadWrite
        (World.initial win32Start)).2.value = (World.initial win32Start).value :=
  AllocFixed_forwards win32Host (World.initial win32Start) 0 0x400000
    AllocationType.kReserveCommit PageAccess.kReadWrite (MEM_RESERVE ||| MEM_COMMIT) rfl rfl

/-- C4: for every base address, length and defined deallocation type,
`DeallocFixed` appends exactly one host call to the log, `VirtualFree` with
the same base and length and the action flags the specification names for
the type; it returns true exactly when that call returned a non-zero value;
it reaches no assertion. -/
theorem DeallocFixed_forwards {σ : Type} (h : Host σ) (w : World σ)
    (base_address length : Nat) (deallocation_type : DeallocationType)
    (flags : Nat) (ht : expectedFreeFlags deallocation_type = some flags) :
    (DeallocFixed h base_address length deallocation_type w).2.calls
        = w.calls ++ [HostCall.VirtualFree base_address length flags] ∧
    ((DeallocFixed h base_address length deallocation_type w).1 = true ↔
      (h.VirtualFree w.host base_address length flags).1 ≠ 0) ∧
    ((DeallocFixed h base_address length deallocation_type w).1 = false ↔
      (h.VirtualFree w.host base_address length flags).1 = 0) ∧
    (DeallocFixed h base_address length deallocation_type w).2.host
        = (h.VirtualFree w.host base_address length flags).2 ∧
    (DeallocFixed h base_address length deallocation_type w).2.asserts = w.asserts ∧
    (DeallocFixed h base_address length deallocation_type w).2.value = w.value := by
  cases deallocation_type <;>
    simp_all [DeallocFixed, callVirtualFree, expectedFreeFlags]

/-- Witness for C4: a stub host whose free primitive answers `-1`, a non-zero
`BOOL`; `DeallocFixed` with `Decommit` reports success. -/
theorem DeallocFixed_forwards_witness :
    (DeallocFixed (cannedHost ⟨0x10000, 0, -1, 0, 0⟩) 0x20000 0x1000
        DeallocationType.kDecommit (World.initial ())).2.calls
        = (World.initial ()).calls ++ [HostCall.VirtualFree 0x20000 0x1000 MEM_DECOMMIT] ∧
    ((DeallocFixed (cannedHost ⟨0x10000, 0, -1, 0, 0⟩) 0x20000 0x1000
        DeallocationType.kDecommit (World.initial ())).1 = true ↔
      ((cannedHost ⟨0x10000, 0, -1, 0, 0⟩).VirtualFree (World.initial ()).host
        0x20000 0x1000 MEM_DECOMMIT).1 ≠ 0) ∧
    ((DeallocFixed (cannedHost ⟨0x10000, 0, -1, 0, 0⟩) 0x20000 0x1000
        DeallocationType.kDecommit (World.initial ())).1 = false ↔
      ((cannedHost ⟨0x10000, 0, -1, 0, 0⟩).VirtualFree (World.initial ()).host
        0x20000 0x1000 MEM_DECOMMIT).1 = 0) ∧
    (DeallocFixed (cannedHost ⟨0x10000, 0, -1, 0, 0⟩) 0x20000 0x1000
        DeallocationType.kDecommit (World.initial ())).2.host
        = ((cannedHost ⟨0x10000, 0, -1, 0, 0⟩).VirtualFree (World.initial ()).host
            0x20000 0x1000 MEM_DECOMMIT).2 ∧
    (DeallocFixed (cannedHost ⟨0x10000, 0, -1, 0, 0⟩) 0x20000 0x1000
        DeallocationType.kDecommit (World.initial ())).2.asserts
        = (World.initial ()).asserts ∧
    (DeallocFixed (cannedHost ⟨0x10000, 0, -1, 0, 0⟩) 0x20000 0x1000
        DeallocationType.kDecommit (World.initial ())).2.value = (World.initial ()).value :=
  DeallocFixed_forwards (cannedHost ⟨0x10000, 0, -1, 0, 0⟩) (World.initial ())
    0x20000 0x1000 DeallocationType.kDecommit MEM_DECOMMIT rfl

/-- C6: when the host call succeeds and reports a prior protection that is
none of `PAGE_NOACCESS`, `PAGE_READONLY`, `PAGE_READWRITE` and
`PAGE_EXECUTE_READWRITE`, `Protect` with a non-null `out_old_access` reaches
its unhandled-case assertion (once, after the host call), returns true and
leaves the pre-cleared `NoAccess` in the out slot. -/
theorem Protect_unknown_prior {σ : Type} (h : Host σ) (w : World σ)
    (base_address length : Nat) (access prior : PageAccess)
    (hok : (h.VirtualProtect w.host base_address length
              (ToWin32ProtectFlags access w).1 0).1.1 ≠ 0)
    (h1 : (h.VirtualProtect w.host base_address length
              (ToWin32ProtectFlags access w).1 0).1.2 ≠ PAGE_NOACCESS)
    (h2 : (h.VirtualProtect w.host base_address length
              (ToWin32ProtectFlags access w).1 0).1.2 ≠ PAGE_READONLY)
    (h3 : (h.VirtualProtect w.host base_address length
              (ToWin32ProtectFlags access w).1 0).1.2 ≠ PAGE_READWRITE)
    (h4 : (h.VirtualProtect w.host base_address length
              (ToWin32ProtectFlags access w).1 0).1.2 ≠ PAGE_EXECUTE_READWRITE) :
    (Protect h base_address length access (some prior) w).2.asserts
        = (ToWin32ProtectFlags access w).2.asserts ++ [AssertSite.Protect] ∧
    (Protect h base_address length access (some prior) w).1
        = { ret := true, out_old_access := some PageAccess.kNoAccess } := by
  have hh := (ToWin32ProtectFlags_host access w).1
  simp_all [Protect, callVirtualProtect, assert_unhandled_case]

/-- Witness for C6: a stub host that succeeds and reports `PAGE_EXECUTE_READ`
(0x20), which the module does not know. -/
theorem Protect_unknown_prior_witness :
    (Protect (cannedHost ⟨0x10000, 0, 0, 1, 0x20⟩) 0x20000 0x10000
        PageAccess.kReadWrite (some PageAccess.kReadOnly) (World.initial ())).2.asserts
        = (ToWin32ProtectFlags PageAccess.kReadWrite (World.initial ())).2.asserts
            ++ [AssertSite.Protect] ∧
    (Protect (cannedHost ⟨0x10000, 0, 0, 1, 0x20⟩) 0x20000 0x10000
        PageAccess.kReadWrite (some PageAccess.kReadOnly) (World.initial ())).1
        = { ret := true, out_old_access := some PageAccess.kNoAccess } :=
  Protect_unknown_prior (cannedHost ⟨0x10000, 0, 0, 1, 0x20⟩) (World.initial ())
    0x20000 0x10000 PageAccess.kReadWrite PageAccess.kReadOnly
    (by decide) (by decide) (by decide) (by decide) (by decide)

/-- C7 fails on the code against a host that follows the documented Win32
rules for `VirtualFree` (with `MEM_RELEASE` the size must be 0, and
`MEM_RELEASE` may not be combined with `MEM_DECOMMIT`): for every length > 0
and every region `AllocFixed(null, length, _, _)` has just returned,
`DeallocFixed` passes the caller's non-zero length with `MEM_RELEASE`, and
`MEM_RELEASE | MEM_DECOMMIT` for `DecommitRelease`, so both calls return
false. -/
theorem DeallocFixed_release_cycle_rejected {σ : Type} (h : Host σ) (w : World σ)
    (length : Nat) (allocation_type : AllocationType) (access : PageAccess)
    (hlen : 0 < length)
    (_halloc : (AllocFixed h 0 length allocation_type access w).1 ≠ 0)
    (hrelease : ∀ s p n, n ≠ 0 → (h.VirtualFree s p n MEM_RELEASE).1 = 0)
    (hboth : ∀ s p n, (h.VirtualFree s p n (MEM_RELEASE ||| MEM_DECOMMIT)).1 = 0) :
    (DeallocFixed h (AllocFixed h 0 length allocation_type access w).1 length
        DeallocationType.kRelease (AllocFixed h 0 length allocation_type access w).2).1
        = false ∧
    (DeallocFixed h (AllocFixed h 0 length allocation_type access w).1 length
        DeallocationType.kDecommitRelease
        (AllocFixed h 0 length allocation_type access w).2).1 = false ∧
    (DeallocFixed h (AllocFixed h 0 length allocation_type access w).1 length
        DeallocationType.kRelease (AllocFixed h 0 length allocation_type access w).2).2.calls
        = (AllocFixed h 0 length allocation_type access w).2.calls ++
            [HostCall.VirtualFree (AllocFixed h 0 length allocation_type access w).1
              length MEM_RELEASE] := by
  have hne : length ≠ 0 := Nat.pos_iff_ne_zero.mp hlen
  simp [DeallocFixed, callVirtualFree, hrelease _ _ _ hne, hboth]

/-- Evaluation for C7 on the Win32 host model: `AllocFixed(null, 64 KiB,
ReserveCommit, ReadWrite)` returns a region, and releasing it with
`DeallocFixed(p, 64 KiB, Release)` or `DecommitRelease` returns false. -/
theorem DeallocFixed_release_cycle_rejected_witness :
    (AllocFixed win32Host 0 0x10000 AllocationType.kReserveCommit PageAccess.kReadWrite
        (World.initial win32Start)).1 = 0x10000 ∧
    (DeallocFixed win32Host
        (AllocFixed win32Host 0 0x10000 AllocationType.kReserveCommit PageAccess.kReadWrite
          (World.initial win32Start)).1 0x10000 DeallocationType.kRelease
        (AllocFixed win32Host 0 0x10000 AllocationType.kReserveCommit PageAccess.kReadWrite
          (World.initial win32Start)).2).1 = false ∧
    (DeallocFixed win32Host
        (AllocFixed win32Host 0 0x10000 AllocationType.kReserveCommit PageAccess.kReadWrite
          (World.initial win32Start)).1 0x10000 DeallocationType.kDecommitRelease
        (AllocFixed win32Host 0 0x10000 AllocationType.kReserveCommit PageAccess.kReadWrite
          (World.initial win32Start)).2).1 = false :=
  have hc := DeallocFixed_release_cycle_rejected win32Host (World.initial win32Start)
    0x10000 AllocationType.kReserveCommit PageAccess.kReadWrite (by decide) (by decide)
    (by intro s p n hn; simp [win32Host, hn])
    (by intro s p n
        have h1 : MEM_RELEASE ||| MEM_DECOMMIT ≠ MEM_RELEASE := by decide
        have h2 : MEM_RELEASE ||| MEM_DECOMMIT ≠ MEM_DECOMMIT := by decide
        simp [win32Host, h1, h2])
  ⟨by decide, hc.1, hc.2.1⟩

/-- C8: with assertions compiled out, on the Win32 host, for every
out-of-range allocation type and every base address, length and access,
`AllocFixed` returns null; its one host call carries action flags 0, which
the host rejects, so no region is reserved (the host state is unchanged). -/
theorem AllocFixed_invalid_type_null (w : World Win32State)
    (base_address length raw : Nat) (access : PageAccess) :
    (AllocFixed win32Host base_address length (AllocationType.invalid raw) access w).1 = 0 ∧
    (AllocFixed win32Host base_address length (AllocationType.invalid raw) access w).2.host
        = w.host ∧
    (AllocFixed win32Host base_address length (AllocationType.invalid raw) access w).2.calls
        = w.calls ++ [HostCall.VirtualAlloc base_address length 0
                        (ToWin32ProtectFlags access w).1] := by
  have hf := AllocFixed_invalid_type_forwards win32Host w base_address length raw access
  have hz := win32Host_rejects_zero_flags w.host base_address length
    (ToWin32ProtectFlags access w).1
  refine ⟨?_, ?_, hf.1⟩
  · rw [hf.2.1, hz]
  · rw [hf.2.2.1, hz]

/-- C9: `ToWin32ProtectFlags` maps `NoAccess`, `ReadOnly`, `ReadWrite` and
`ExecuteReadWrite` to `PAGE_NOACCESS`, `PAGE_READONLY`, `PAGE_READWRITE` and
`PAGE_EXECUTE_READWRITE` and leaves the world as it was (no assertion); for
every other value it reaches the unhandled-case assertion and returns
`PAGE_NOACCESS`; so `AllocFixed` and `Protect`, given an out-of-range access,
hand `PAGE_NOACCESS` to the host in their one host call. -/
theorem ToWin32ProtectFlags_never_widens {σ : Type} (h : Host σ) (w : World σ) :
    ToWin32ProtectFlags PageAccess.kNoAccess w = (PAGE_NOACCESS, w) ∧
    ToWin32ProtectFlags PageAccess.kReadOnly w = (PAGE_READONLY, w) ∧
    ToWin32ProtectFlags PageAccess.kReadWrite w = (PAGE_READWRITE, w) ∧
    ToWin32ProtectFlags PageAccess.kExecuteReadWrite w = (PAGE_EXECUTE_READWRITE, w) ∧
    (∀ raw, ToWin32ProtectFlags (PageAccess.invalid raw) w
        = (PAGE_NOACCESS, { w with asserts := w.asserts ++ [AssertSite.ToWin32ProtectFlags] })) ∧
    (∀ raw base_address length allocation_type, ∃ alloc_type,
      (AllocFixed h base_address length allocation_type (PageAccess.invalid raw) w).2.calls
        = w.calls ++ [HostCall.VirtualAlloc base_address length alloc_type PAGE_NOACCESS]) ∧
    (∀ raw base_address length out_old_access,
      (Protect h base_address length (PageAccess.invalid raw) out_old_access w).2.calls
        = w.calls ++ [HostCall.VirtualProtect base_address length PAGE_NOACCESS]) := by
  refine ⟨rfl, rfl, rfl, rfl, fun _ => rfl, ?_, ?_⟩
  · intro raw base_address length allocation_type
    cases allocation_type <;> exact ⟨_, rfl⟩
  · intro raw base_address length out_old_access
    simp only [Protect, callVirtualProtect, ToWin32ProtectFlags, assert_unhandled_case]
    split
    · split <;> (try split) <;> (try split) <;> (try split) <;> (try split) <;> rfl
    · rfl

/-- C10 fails on the code: when the host call succeeds and reports
`PAGE_EXECUTE_READWRITE`, `Protect` with a defined access and a non-null
`out_old_access` stores `ExecuteReadWrite`, then runs on from
`case PAGE_EXECUTE_READWRITE` into `default` and reaches the unhandled-case
assertion. -/
theorem Protect_asserts_on_execute_readwrite {σ : Type} (h : Host σ) (w : World σ)
    (base_address length : Nat) (access prior : PageAccess)
    (ha : access.isDefined = true)
    (hok : (h.VirtualProtect w.host base_address length
              (ToWin32ProtectFlags access w).1 0).1.1 ≠ 0)
    (hold : (h.VirtualProtect w.host base_address length
              (ToWin32ProtectFlags access w).1 0).1.2 = PAGE_EXECUTE_READWRITE) :
    (Protect h base_address length access (some prior) w).2.asserts
        = w.asserts ++ [AssertSite.Protect] ∧
    (Protect h base_address length access (some prior) w).1
        = { ret := true, out_old_access := some PageAccess.kExecuteReadWrite } := by
  have hw := ToWin32ProtectFlags_defined access w ha
  simp_all [Protect, callVirtualProtect, assert_unhandled_case,
    PAGE_NOACCESS, PAGE_READONLY, PAGE_READWRITE, PAGE_EXECUTE_READWRITE]

/-- Evaluation for C10: on the Win32 host model, a region committed
`ExecuteReadWrite` is flipped to `ReadOnly`; `Protect` reports the prior
access correctly and reaches its unhandled-case assertion. -/
theorem Protect_asserts_on_execute_readwrite_witness :
    (Protect win32Host 0x10000 0x10000 PageAccess.kReadOnly (some PageAccess.kNoAccess)
        (AllocFixed win32Host 0 0x10000 AllocationType.kReserveCommit
          PageAccess.kExecuteReadWrite (World.initial win32Start)).2).2.asserts
        = (AllocFixed win32Host 0 0x10000 AllocationType.kReserveCommit
            PageAccess.kExecuteReadWrite (World.initial win32Start)).2.asserts
            ++ [AssertSite.Protect] ∧
    (Protect win32Host 0x10000 0x10000 PageAccess.kReadOnly (some PageAccess.kNoAccess)
        (AllocFixed win32Host 0 0x10000 AllocationType.kReserveCommit
          PageAccess.kExecuteReadWrite (World.initial win32Start)).2).1
        = { ret := true, out_old_access := some PageAccess.kExecuteReadWrite } :=
  Protect_asserts_on_execute_readwrite win32Host
    (AllocFixed win32Host 0 0x10000 AllocationType.kReserveCommit
      PageAccess.kExecuteReadWrite (World.initial win32Start)).2
    0x10000 0x10000 PageAccess.kReadOnly PageAccess.kNoAccess rfl (by decide) (by decide)

end xe.memory
